import Mathlib

/-!
Verification development for the overlay dialog subsystem of the component
library, whose single stateful unit is the Modal component in
src/components/Modal.tsx.  All other files of the repository are
declarative style tables with no lifecycle logic.

The embedding below follows the source:

* `ModalProps` mirrors the props record of the Modal function (the
  presentational fields title, size, content and footer carry no lifecycle
  logic and are omitted; the three behavioural fields are kept).
* `resolveProps` mirrors the destructuring defaults on lines 19 to 28 of
  Modal.tsx: `closeOnBackdropClick = true, closeOnEscapeKey = true`.
* The two `useEffect` hooks (lines 31 to 44 and 46 to 54) are embedded as
  `escapeEffect` and `scrollEffect`, each returning the pair
  (effects run by the body, effects run by the cleanup).  The host runtime
  commits a render (mounting or unmounting the portal content) and then
  runs cleanups of the previous effects in declaration order followed by
  the new effect bodies in declaration order; `commitTransition` encodes
  exactly that, and `openTrace` / `closeTrace` are its two instances for
  an isOpen flip.
* `DocumentState` is the relevant global document state: the body overflow
  style, the registered keydown listeners (one entry per instance that
  registered, since each mounted Modal passes a distinct handler to
  addEventListener) and the children of the portal target document.body.
* Click handling mirrors the JSX nesting of lines 75 to 132: the close
  button and the body content sit inside the modal div, which sits inside
  the backdrop div.  `handleBackdropClick` (lines 65 to 69),
  `handleModalClick` (lines 71 to 73) and `handleEscape` (lines 36 to 40)
  are embedded directly; each handler returns the props it leaves behind
  together with the number of onClose invocations it performs, so that
  frame properties are visible in the model.
-/

/-- Behavioural props of the Modal component (Modal.tsx lines 4 to 13). -/
structure ModalProps where
  isOpen : Bool
  closeOnBackdropClick : Bool
  closeOnEscapeKey : Bool
deriving DecidableEq

/-- Caller-side input where the two dismissal flags may be omitted,
as in the TypeScript props interface with optional fields. -/
structure ModalPropsInput where
  isOpen : Bool
  closeOnBackdropClick : Option Bool
  closeOnEscapeKey : Option Bool

/-- Destructuring defaults of Modal.tsx lines 19 to 28:
`closeOnBackdropClick = true, closeOnEscapeKey = true`. -/
def resolveProps (i : ModalPropsInput) : ModalProps :=
  { isOpen := i.isOpen
    closeOnBackdropClick := i.closeOnBackdropClick.getD true
    closeOnEscapeKey := i.closeOnEscapeKey.getD true }

/-- Dismissal policy query for backdrop clicks: the config flag. -/
def shouldDismissOnBackdrop (p : ModalProps) : Bool :=
  p.closeOnBackdropClick

/-- Dismissal policy query for the Escape key: the config flag. -/
def shouldDismissOnEscape (p : ModalProps) : Bool :=
  p.closeOnEscapeKey

/-- Observable side effects the component performs on the document. -/
inductive Effect where
  | mountContent (id : Nat)
  | unmountContent (id : Nat)
  | addKeyListener (id : Nat)
  | removeKeyListener (id : Nat)
  | setOverflow (v : String)
deriving DecidableEq

/-- Document-global state touched by the component: the body overflow
style, the keydown listeners registered by instances, and the portal
children of document.body, in insertion order. -/
structure DocumentState where
  bodyOverflow : String
  keydownListeners : List Nat
  portalContents : List Nat
deriving DecidableEq

/-- Interpretation of one effect on the document.  addEventListener and
appendChild append; removeEventListener and removeChild delete the
matching entry; the style write overwrites. -/
def applyEffect (d : DocumentState) : Effect → DocumentState
  | Effect.mountContent id =>
      { d with portalContents := d.portalContents ++ [id] }
  | Effect.unmountContent id =>
      { d with portalContents := d.portalContents.erase id }
  | Effect.addKeyListener id =>
      { d with keydownListeners := d.keydownListeners ++ [id] }
  | Effect.removeKeyListener id =>
      { d with keydownListeners := d.keydownListeners.erase id }
  | Effect.setOverflow v =>
      { d with bodyOverflow := v }

/-- Run a list of effects left to right. -/
def applyTrace (d : DocumentState) (es : List Effect) : DocumentState :=
  es.foldl applyEffect d

/-- A document with a given initial overflow style, no listeners and no
portal content. -/
def initialDoc (ov : String) : DocumentState :=
  { bodyOverflow := ov, keydownListeners := [], portalContents := [] }

/-- First useEffect of Modal.tsx (lines 31 to 44): when open and
closeOnEscapeKey holds, the body registers a keydown listener and the
returned cleanup removes it; otherwise the effect returns early and
registers no cleanup.  Result: (body effects, cleanup effects). -/
def escapeEffect (id : Nat) (p : ModalProps) : List Effect × List Effect :=
  if p.isOpen = false then ([], [])
  else if p.closeOnEscapeKey then
    ([Effect.addKeyListener id], [Effect.removeKeyListener id])
  else ([], [])

/-- Second useEffect of Modal.tsx (lines 46 to 54): when open, the body
sets overflow to the literal "hidden" and the cleanup sets it to the
literal "unset"; the previous style is not captured anywhere. -/
def scrollEffect (p : ModalProps) : List Effect × List Effect :=
  if p.isOpen then
    ([Effect.setOverflow "hidden"], [Effect.setOverflow "unset"])
  else ([], [])

/-- DOM mutation of the render commit: line 56 returns null when closed,
line 136 portals the content into document.body when open. -/
def renderDiff (id : Nat) (pOld pNew : ModalProps) : List Effect :=
  if pOld.isOpen = false && pNew.isOpen = true then [Effect.mountContent id]
  else if pOld.isOpen = true && pNew.isOpen = false then [Effect.unmountContent id]
  else []

/-- One re-render of the component when its props change from pOld to
pNew: the host runtime commits the DOM diff, then runs the cleanups of
the previous effects in declaration order (escape effect first, scroll
effect second, the order they appear in the source), then the new effect
bodies in the same declaration order. -/
def commitTransition (id : Nat) (pOld pNew : ModalProps) : List Effect :=
  renderDiff id pOld pNew
    ++ (escapeEffect id pOld).2 ++ (scrollEffect pOld).2
    ++ (escapeEffect id pNew).1 ++ (scrollEffect pNew).1

/-- Effects of the transition Closed to Open for an instance with
configuration p. -/
def openTrace (id : Nat) (p : ModalProps) : List Effect :=
  commitTransition id { p with isOpen := false } { p with isOpen := true }

/-- Effects of the transition Open to Closed for an instance with
configuration p. -/
def closeTrace (id : Nat) (p : ModalProps) : List Effect :=
  commitTransition id { p with isOpen := true } { p with isOpen := false }

/-- What one instance contributes to the render tree. -/
inductive RenderResult where
  | empty
  | portalTo (id : Nat)
deriving DecidableEq

/-- Render function of the component: line 56 of Modal.tsx,
`if (!isOpen) return null`, otherwise the content is portalled to
document.body (line 136). -/
def render (id : Nat) (p : ModalProps) : RenderResult :=
  if p.isOpen = false then RenderResult.empty else RenderResult.portalTo id

/-- A lifecycle transition of one instance: the caller flips isOpen. -/
inductive Transition where
  | openT (id : Nat) (p : ModalProps)
  | closeT (id : Nat) (p : ModalProps)
deriving DecidableEq

/-- Effects produced by a transition. -/
def transitionTrace : Transition → List Effect
  | Transition.openT id p => openTrace id p
  | Transition.closeT id p => closeTrace id p

/-- Run a sequence of transitions against the document. -/
def runTransitions (d : DocumentState) (ts : List Transition) : DocumentState :=
  ts.foldl (fun d t => applyTrace d (transitionTrace t)) d

/-- Ghost bookkeeping for valid runs: the list of currently open
instances with their configurations.  Opening an id that is already open
or closing one that is not open is rejected. -/
def stepOpen (s : List (Nat × ModalProps)) : Transition → Option (List (Nat × ModalProps))
  | Transition.openT id p =>
      if s.any (fun e => e.1 = id) then none else some (s ++ [(id, p)])
  | Transition.closeT id p =>
      if (id, p) ∈ s then some (s.erase (id, p)) else none

/-- Threading of the ghost open set through a transition sequence. -/
def runOpen (s : List (Nat × ModalProps)) : List Transition → Option (List (Nat × ModalProps))
  | [] => some s
  | t :: ts =>
    match stepOpen s t with
    | none => none
    | some s2 => runOpen s2 ts

/-- Ids of the currently open instances. -/
def openIds (s : List (Nat × ModalProps)) : List Nat :=
  s.map Prod.fst

/-- Ids of the currently open instances whose dismissal policy listens
for the Escape key. -/
def escIds (s : List (Nat × ModalProps)) : List Nat :=
  (s.filter (fun e => e.2.closeOnEscapeKey)).map Prod.fst

/-- A mouse event as the handlers see it. -/
structure ClickEvent where
  propagationStopped : Bool

/-- handleModalClick (Modal.tsx lines 71 to 73): stops propagation and
does nothing else. -/
def handleModalClick (e : ClickEvent) : ClickEvent :=
  { e with propagationStopped := true }

/-- handleBackdropClick (Modal.tsx lines 65 to 69): calls onClose when
closeOnBackdropClick holds.  The result pairs the props left behind with
the number of onClose invocations. -/
def handleBackdropClick (p : ModalProps) : ModalProps × Nat :=
  if p.closeOnBackdropClick then (p, 1) else (p, 0)

/-- handleEscape (Modal.tsx lines 36 to 40): calls onClose when the key
is Escape.  The result pairs the props left behind with the number of
onClose invocations. -/
def handleEscape (p : ModalProps) (key : String) : ModalProps × Nat :=
  if key = "Escape" then (p, 1) else (p, 0)

/-- Where a click lands inside the rendered dialog. -/
inductive ClickTarget where
  | backdrop
  | interior
  | closeButton
deriving DecidableEq

/-- The click handlers attached along the DOM path from each target to
the root, innermost first, mirroring the JSX nesting of lines 75 to 132:
the close button (line 110) and the body content (line 102) are children
of the modal div (line 81), which is a child of the backdrop div
(line 76).  The body content itself carries no click handler. -/
inductive ClickHandler where
  | closeButtonOnClick
  | modalDivOnClick
  | backdropDivOnClick

/-- Handler chain for each click target, innermost first. -/
def handlerChain : ClickTarget → List ClickHandler
  | ClickTarget.backdrop => [ClickHandler.backdropDivOnClick]
  | ClickTarget.interior => [ClickHandler.modalDivOnClick, ClickHandler.backdropDivOnClick]
  | ClickTarget.closeButton =>
      [ClickHandler.closeButtonOnClick, ClickHandler.modalDivOnClick,
       ClickHandler.backdropDivOnClick]

/-- Run one handler: resulting props, onClose invocations, and whether
the handler stopped propagation. -/
def runHandler (p : ModalProps) : ClickHandler → ModalProps × Nat × Bool
  | ClickHandler.closeButtonOnClick => (p, 1, false)
  | ClickHandler.modalDivOnClick =>
      let e := handleModalClick { propagationStopped := false }
      (p, 0, e.propagationStopped)
  | ClickHandler.backdropDivOnClick =>
      let r := handleBackdropClick p
      (r.1, r.2, false)

/-- Bubble a click along a handler chain, stopping when a handler stops
propagation; returns the final props and the total onClose count. -/
def bubble (p : ModalProps) : List ClickHandler → ModalProps × Nat
  | [] => (p, 0)
  | h :: rest =>
    let r := runHandler p h
    if r.2.2 then (r.1, r.2.1)
    else
      let q := bubble r.1 rest
      (q.1, r.2.1 + q.2)

/-- Dispatch a click on an open dialog.  When the dialog is closed there
is no rendered DOM, so no target exists and no handler runs. -/
def dispatchClick (p : ModalProps) (t : ClickTarget) : ModalProps × Nat :=
  if p.isOpen then bubble p (handlerChain t) else (p, 0)

/-- Dispatch a keydown on the document.  The listener is registered
exactly while the instance is open with closeOnEscapeKey (first
useEffect), so the handler runs only then. -/
def dispatchKeydown (p : ModalProps) (key : String) : ModalProps × Nat :=
  if p.isOpen && p.closeOnEscapeKey then handleEscape p key else (p, 0)

/-- The default configuration: both dismissal flags resolved to true. -/
def defaultDialogProps : ModalProps :=
  { isOpen := true, closeOnBackdropClick := true, closeOnEscapeKey := true }

/-! ### Helper lemmas -/

/-- Running an appended effect list is sequential composition. -/
theorem applyTrace_append (d : DocumentState) (es1 es2 : List Effect) :
    applyTrace d (es1 ++ es2) = applyTrace (applyTrace d es1) es2 := by
  simp [applyTrace, List.foldl_append]

/-- Computed form of the open transition trace: the render commit mounts
the portal content first, then the escape effect body runs, then the
scroll effect body runs. -/
theorem openTrace_eq (id : Nat) (p : ModalProps) :
    openTrace id p =
      Effect.mountContent id ::
        ((if p.closeOnEscapeKey then [Effect.addKeyListener id] else []) ++
          [Effect.setOverflow "hidden"]) := by
  cases hp : p.closeOnEscapeKey <;>
    simp [openTrace, commitTransition, renderDiff, escapeEffect, scrollEffect, hp]

/-- Computed form of the close transition trace: the render commit
removes the portal content first, then the escape effect cleanup runs,
then the scroll effect cleanup runs. -/
theorem closeTrace_eq (id : Nat) (p : ModalProps) :
    closeTrace id p =
      Effect.unmountContent id ::
        ((if p.closeOnEscapeKey then [Effect.removeKeyListener id] else []) ++
          [Effect.setOverflow "unset"]) := by
  cases hp : p.closeOnEscapeKey <;>
    simp [closeTrace, commitTransition, renderDiff, escapeEffect, scrollEffect, hp]

/-- Effect of one open transition on the document. -/
theorem applyTrace_openTrace (d : DocumentState) (id : Nat) (p : ModalProps) :
    applyTrace d (openTrace id p) =
      { bodyOverflow := "hidden"
        keydownListeners :=
          if p.closeOnEscapeKey then d.keydownListeners ++ [id] else d.keydownListeners
        portalContents := d.portalContents ++ [id] } := by
  cases hp : p.closeOnEscapeKey <;>
    simp [openTrace_eq, hp, applyTrace, applyEffect]

/-- Effect of one close transition on the document. -/
theorem applyTrace_closeTrace (d : DocumentState) (id : Nat) (p : ModalProps) :
    applyTrace d (closeTrace id p) =
      { bodyOverflow := "unset"
        keydownListeners :=
          if p.closeOnEscapeKey then d.keydownListeners.erase id else d.keydownListeners
        portalContents := d.portalContents.erase id } := by
  cases hp : p.closeOnEscapeKey <;>
    simp [closeTrace_eq, hp, applyTrace, applyEffect]

/-- Transition sequences compose. -/
theorem runTransitions_append (d : DocumentState) (ts1 ts2 : List Transition) :
    runTransitions d (ts1 ++ ts2) = runTransitions (runTransitions d ts1) ts2 := by
  simp [runTransitions, List.foldl_append]

/-- Unfolding lemma for a single leading transition. -/
theorem runTransitions_cons (d : DocumentState) (t : Transition) (ts : List Transition) :
    runTransitions d (t :: ts) = runTransitions (applyTrace d (transitionTrace t)) ts := rfl

/-- Appending a fresh open instance to the ghost set extends the open id
list on the right. -/
theorem openIds_append (s : List (Nat × ModalProps)) (id : Nat) (p : ModalProps) :
    openIds (s ++ [(id, p)]) = openIds s ++ [id] := by
  simp [openIds]

/-- Appending a fresh open instance extends the escape id list on the
right exactly when its policy listens for Escape. -/
theorem escIds_append (s : List (Nat × ModalProps)) (id : Nat) (p : ModalProps) :
    escIds (s ++ [(id, p)]) =
      escIds s ++ (if p.closeOnEscapeKey then [id] else []) := by
  cases hp : p.closeOnEscapeKey <;>
    simp [escIds, List.filter_append, List.filter_cons, hp]

/-- Removing an element that occurs in a list of instance entries leaves
a permutation with that element consed in front. -/
theorem perm_cons_erase_pair :
    ∀ (s : List (Nat × ModalProps)) (x : Nat × ModalProps), x ∈ s → s.Perm (x :: s.erase x) := by
  intro s
  induction s with
  | nil => intro x hx; cases hx
  | cons a as ih =>
    intro x hx
    by_cases hax : a = x
    · subst hax
      simp
    · have hbeq : (a == x) = false := by
        simpa using hax
      have hx2 : x ∈ as := by
        cases hx with
        | head => exact absurd rfl hax
        | tail _ h => exact h
      rw [List.erase_cons_tail]
      · exact ((ih x hx2).cons a).trans (List.Perm.swap x a _)
      · simp [hbeq]

/-- Key invariant of valid runs: starting from a document whose listener
list is a permutation of the escape ids of the ghost open set and whose
portal content is a permutation of the open ids, any valid transition
sequence preserves both permutations. -/
theorem runOpen_invariant :
    ∀ (ts : List Transition) (s s2 : List (Nat × ModalProps)) (d : DocumentState),
      (openIds s).Nodup →
      d.keydownListeners.Perm (escIds s) →
      d.portalContents.Perm (openIds s) →
      runOpen s ts = some s2 →
      (runTransitions d ts).keydownListeners.Perm (escIds s2) ∧
        (runTransitions d ts).portalContents.Perm (openIds s2) := by
  intro ts
  induction ts with
  | nil =>
    intro s s2 d hnd hkl hpc hrun
    simp [runOpen] at hrun
    subst hrun
    exact ⟨hkl, hpc⟩
  | cons t ts ih =>
    intro s s2 d hnd hkl hpc hrun
    cases t with
    | openT id p =>
      by_cases hany : s.any (fun e => e.1 = id)
      · simp [runOpen, stepOpen, hany] at hrun
      · simp only [runOpen, stepOpen, hany, if_false, Option.some_bind] at hrun
        have hid : id ∉ openIds s := by
          intro hmem
          apply hany
          rcases List.mem_map.mp hmem with ⟨e, he, hfst⟩
          exact List.any_eq_true.mpr ⟨e, he, by simp [hfst]⟩
        have hnd2 : (openIds (s ++ [(id, p)])).Nodup := by
          rw [openIds_append]
          exact hnd.append (List.nodup_singleton id)
            (fun a ha hb => by simp at hb; exact hid (hb ▸ ha))
        have hstep := runTransitions_cons d (Transition.openT id p) ts
        rw [hstep]
        apply ih (s ++ [(id, p)]) s2 _ hnd2 _ _ hrun
        · rw [transitionTrace, applyTrace_openTrace, escIds_append]
          cases hp : p.closeOnEscapeKey
          · simpa using hkl
          · simpa using hkl.append_right [id]
        · rw [transitionTrace, applyTrace_openTrace, openIds_append]
          simpa using hpc.append_right [id]
    | closeT id p =>
      by_cases hmem : (id, p) ∈ s
      · simp only [runOpen, stepOpen, hmem, if_true, Option.some_bind] at hrun
        have hperm : s.Perm ((id, p) :: s.erase (id, p)) :=
          perm_cons_erase_pair s (id, p) hmem
        have hnd2 : (openIds (s.erase (id, p))).Nodup :=
          hnd.sublist ((List.erase_sublist (id, p) s).map Prod.fst)
        have hopen : (openIds s).Perm (id :: openIds (s.erase (id, p))) := by
          simpa [openIds] using hperm.map Prod.fst
        have hstep := runTransitions_cons d (Transition.closeT id p) ts
        rw [hstep]
        apply ih (s.erase (id, p)) s2 _ hnd2 _ _ hrun
        · rw [transitionTrace, applyTrace_closeTrace]
          cases hp : p.closeOnEscapeKey
          · have hesc : (escIds s).Perm (escIds (s.erase (id, p))) := by
              have := (hperm.filter (fun e => e.2.closeOnEscapeKey)).map Prod.fst
              simpa [escIds, List.filter_cons, hp] using this
            simpa using hkl.trans hesc
          · have hesc : (escIds s).Perm (id :: escIds (s.erase (id, p))) := by
              have := (hperm.filter (fun e => e.2.closeOnEscapeKey)).map Prod.fst
              simpa [escIds, List.filter_cons, hp] using this
            have := (hkl.trans hesc).erase id
            simpa [List.erase_cons_head] using this
        · rw [transitionTrace, applyTrace_closeTrace]
          have := (hpc.trans hopen).erase id
          simpa [List.erase_cons_head] using this
      · simp [runOpen, stepOpen, hmem] at hrun

/-! ### Claims -/

/-- C1 counterexample: with pre-open overflow style "auto", opening and
then closing a single instance leaves the overflow style "unset", which
differs from the style captured before the first lock; the code restores
a hard-coded value, so the claim fails as stated. -/
theorem C1_counterexample :
    ¬ ((runTransitions (initialDoc "auto")
          [Transition.openT 0 defaultDialogProps,
           Transition.closeT 0 defaultDialogProps]).bodyOverflow
        = (initialDoc "auto").bodyOverflow) := by
  decide

/-- C1 amended: for any sequence of open and close transitions across
any number of instances, after all instances are closed (the sequence
ends with a close transition) the scroll-disabling style of the document
equals the hard-coded constant "unset"; the code keeps no lock count and
never captures the prior style. -/
theorem C1_overflow_after_final_close (d : DocumentState) (ts : List Transition)
    (id : Nat) (p : ModalProps) :
    (runTransitions d (ts ++ [Transition.closeT id p])).bodyOverflow = "unset" := by
  rw [runTransitions_append]
  simp [runTransitions, transitionTrace, applyTrace_closeTrace]

/-- C2 counterexample: in the scenario open B, open C, close C with
pre-open style "auto", the overflow style is already "unset" while B is
still mounted, so the release performed for C clears the scroll
suppression before the last instance closes, and after closing B the
final style is "unset" rather than the pre-B style "auto"; no lock count
exists in the code. -/
theorem C2_counterexample :
    ((runTransitions (initialDoc "auto")
        [Transition.openT 0 defaultDialogProps, Transition.openT 1 defaultDialogProps,
         Transition.closeT 1 defaultDialogProps]).bodyOverflow = "unset" ∧
      (runTransitions (initialDoc "auto")
        [Transition.openT 0 defaultDialogProps, Transition.openT 1 defaultDialogProps,
         Transition.closeT 1 defaultDialogProps]).portalContents = [0]) ∧
    ¬ ((runTransitions (initialDoc "auto")
        [Transition.openT 0 defaultDialogProps, Transition.openT 1 defaultDialogProps,
         Transition.closeT 1 defaultDialogProps,
         Transition.closeT 0 defaultDialogProps]).bodyOverflow = "auto") := by
  decide

/-- C2 amended: the scroll lock is not reference counted; each instance
writes the overflow style directly, so opening B then C and closing C
then B yields the overflow sequence "hidden", "hidden", "unset",
"unset": the release for C already restores the hard-coded "unset" while
B is still open, and the release for B writes the same constant, never
the pre-B style. -/
theorem C2_overflow_sequence (ov : String) :
    (runTransitions (initialDoc ov)
      [Transition.openT 0 defaultDialogProps]).bodyOverflow = "hidden" ∧
    (runTransitions (initialDoc ov)
      [Transition.openT 0 defaultDialogProps,
       Transition.openT 1 defaultDialogProps]).bodyOverflow = "hidden" ∧
    (runTransitions (initialDoc ov)
      [Transition.openT 0 defaultDialogProps, Transition.openT 1 defaultDialogProps,
       Transition.closeT 1 defaultDialogProps]).bodyOverflow = "unset" ∧
    (runTransitions (initialDoc ov)
      [Transition.openT 0 defaultDialogProps, Transition.openT 1 defaultDialogProps,
       Transition.closeT 1 defaultDialogProps,
       Transition.closeT 0 defaultDialogProps]).bodyOverflow = "unset" :=
  ⟨rfl, rfl, rfl, rfl⟩

/-- C3 counterexample: the effect order of one open transition is not
lock first, listener second, content last; with the default
configuration the actual open trace differs from the claimed one. -/
theorem C3_counterexample :
    openTrace 0 defaultDialogProps ≠
      [Effect.setOverflow "hidden", Effect.addKeyListener 0,
       Effect.mountContent 0] := by
  decide

/-- C3 amended: within one open transition the side effects execute in
the fixed order content first (the render commit mounts the portal),
then the key observer registration when dismissPolicy.onEscape holds,
then the scroll lock acquisition; on close the reverse order holds:
unmount, then deregister, then release.  Consequently during an open
transition the listener is attached and the content mounted before the
lock is acquired, not after. -/
theorem C3_effect_order (id : Nat) (p : ModalProps) :
    openTrace id p =
      Effect.mountContent id ::
        ((if p.closeOnEscapeKey then [Effect.addKeyListener id] else []) ++
          [Effect.setOverflow "hidden"]) ∧
    closeTrace id p =
      Effect.unmountContent id ::
        ((if p.closeOnEscapeKey then [Effect.removeKeyListener id] else []) ++
          [Effect.setOverflow "unset"]) :=
  ⟨openTrace_eq id p, closeTrace_eq id p⟩

/-- C4 counterexample: an instance opened with dismissPolicy.onEscape
false is Open (its content is mounted) yet no key observer registration
exists, so the claimed equivalence between being Open and having a key
observer fails as stated. -/
theorem C4_counterexample :
    (runTransitions (initialDoc "auto")
      [Transition.openT 0
        { isOpen := true, closeOnBackdropClick := true,
          closeOnEscapeKey := false }]).portalContents = [0] ∧
    (runTransitions (initialDoc "auto")
      [Transition.openT 0
        { isOpen := true, closeOnBackdropClick := true,
          closeOnEscapeKey := false }]).keydownListeners = [] := by
  decide

/-- C4 amended: after any valid run, a key observer registration for an
instance exists exactly when that instance is open and its
dismissPolicy.onEscape is true, and the number of active listeners
equals the number of currently open instances whose onEscape flag is
true; the portal holds exactly the open instances; and for a single
instance opened alone the scroll-disabling style is in effect exactly
during its open interval (set to "hidden" on open and to "unset" on
close). -/
theorem C4_listener_hygiene (ts : List Transition)
    (s2 : List (Nat × ModalProps)) (ov : String)
    (hrun : runOpen [] ts = some s2) :
    ((runTransitions (initialDoc ov) ts).keydownListeners.length = (escIds s2).length ∧
      ∀ id, id ∈ (runTransitions (initialDoc ov) ts).keydownListeners ↔ id ∈ escIds s2) ∧
    ((∀ id, id ∈ (runTransitions (initialDoc ov) ts).portalContents ↔ id ∈ openIds s2) ∧
      ∀ id p,
        (runTransitions (initialDoc ov) [Transition.openT id p]).bodyOverflow = "hidden" ∧
        (runTransitions (initialDoc ov)
          [Transition.openT id p, Transition.closeT id p]).bodyOverflow = "unset") := by
  have hinv := runOpen_invariant ts [] s2 (initialDoc ov)
    (by simp [openIds]) (by simp [initialDoc, escIds]) (by simp [initialDoc, openIds]) hrun
  refine ⟨⟨hinv.1.length_eq, fun id => hinv.1.mem_iff⟩, fun id => hinv.2.mem_iff, ?_⟩
  intro id p
  constructor
  · simp [runTransitions, transitionTrace, applyTrace_openTrace]
  · simp [runTransitions, transitionTrace, applyTrace_closeTrace]

/-- C4 witness: the amended statement applied to the concrete run that
opens one default instance. -/
theorem C4_witness :
    runOpen [] [Transition.openT 0 defaultDialogProps] = some [(0, defaultDialogProps)] ∧
    (runTransitions (initialDoc "auto")
      [Transition.openT 0 defaultDialogProps]).keydownListeners.length
      = (escIds [(0, defaultDialogProps)]).length :=
  ⟨by decide,
    (C4_listener_hygiene [Transition.openT 0 defaultDialogProps]
      [(0, defaultDialogProps)] "auto" (by decide)).1.1⟩

/-- C5: a click on the interior content of an open dialog never invokes
onCloseRequested, even when dismissPolicy.onBackdrop is true, because
the modal div stops propagation before the backdrop handler runs; a
click on the backdrop area invokes it once when the flag is true. -/
theorem C5_interior_vs_backdrop (p : ModalProps) (hOpen : p.isOpen = true) :
    (dispatchClick p ClickTarget.interior).2 = 0 ∧
    (p.closeOnBackdropClick = true →
      (dispatchClick p ClickTarget.backdrop).2 = 1) := by
  constructor
  · simp [dispatchClick, hOpen, handlerChain, bubble, runHandler, handleModalClick]
  · intro hb
    simp [dispatchClick, hOpen, handlerChain, bubble, runHandler, handleBackdropClick, hb]

/-- C5 witness: the interior and backdrop click behaviour at the default
configuration. -/
theorem C5_witness :
    defaultDialogProps.isOpen = true ∧
    ((dispatchClick defaultDialogProps ClickTarget.interior).2 = 0 ∧
      (defaultDialogProps.closeOnBackdropClick = true →
        (dispatchClick defaultDialogProps ClickTarget.backdrop).2 = 1)) :=
  ⟨rfl, C5_interior_vs_backdrop defaultDialogProps rfl⟩

/-- C6: with dismissPolicy.onEscape true, one Escape keydown while the
instance is open invokes onCloseRequested exactly once, and an Escape
keydown while it is closed invokes it zero times (no listener is
registered then). -/
theorem C6_escape_once (p : ModalProps) (hEsc : p.closeOnEscapeKey = true) :
    (p.isOpen = true → (dispatchKeydown p "Escape").2 = 1) ∧
    (p.isOpen = false → (dispatchKeydown p "Escape").2 = 0) := by
  constructor
  · intro ho
    simp [dispatchKeydown, ho, hEsc, handleEscape]
  · intro hc
    simp [dispatchKeydown, hc]

/-- C6 witness: the Escape behaviour at the default configuration. -/
theorem C6_witness :
    defaultDialogProps.closeOnEscapeKey = true ∧
    ((defaultDialogProps.isOpen = true →
        (dispatchKeydown defaultDialogProps "Escape").2 = 1) ∧
      (defaultDialogProps.isOpen = false →
        (dispatchKeydown defaultDialogProps "Escape").2 = 0)) :=
  ⟨rfl, C6_escape_once defaultDialogProps rfl⟩

/-- C7: while an instance is Closed, rendering it produces no output
(line 56 returns null), and after any valid run in which the instance is
not open, the portal target contains no content attributable to it. -/
theorem C7_closed_no_output (id : Nat) (p : ModalProps) (ts : List Transition)
    (s2 : List (Nat × ModalProps)) (ov : String)
    (hClosed : p.isOpen = false) (hrun : runOpen [] ts = some s2)
    (hNotOpen : id ∉ openIds s2) :
    render id p = RenderResult.empty ∧
      id ∉ (runTransitions (initialDoc ov) ts).portalContents := by
  constructor
  · simp [render, hClosed]
  · have hinv := runOpen_invariant ts [] s2 (initialDoc ov)
      (by simp [openIds]) (by simp [initialDoc, escIds]) (by simp [initialDoc, openIds]) hrun
    intro hmem
    exact hNotOpen (hinv.2.mem_iff.mp hmem)

/-- C7 witness: a closed instance 0 renders nothing and owns no portal
content after a run that opened and closed instance 1. -/
theorem C7_witness :
    ({ isOpen := false, closeOnBackdropClick := true,
        closeOnEscapeKey := true } : ModalProps).isOpen = false ∧
    runOpen [] [Transition.openT 1 defaultDialogProps,
      Transition.closeT 1 defaultDialogProps] = some [] ∧
    (0 : Nat) ∉ openIds [] ∧
    (render 0 { isOpen := false, closeOnBackdropClick := true,
                closeOnEscapeKey := true } = RenderResult.empty ∧
      0 ∉ (runTransitions (initialDoc "auto")
        [Transition.openT 1 defaultDialogProps,
         Transition.closeT 1 defaultDialogProps]).portalContents) :=
  ⟨rfl, by decide, by decide,
    C7_closed_no_output 0
      { isOpen := false, closeOnBackdropClick := true, closeOnEscapeKey := true }
      [Transition.openT 1 defaultDialogProps, Transition.closeT 1 defaultDialogProps]
      [] "auto" rfl (by decide) (by decide)⟩

/-- C8: no dismissal path mutates the caller-owned configuration; every
click or keydown dispatch returns the props unchanged and only reports
how often onCloseRequested was invoked. -/
theorem C8_no_self_close (p : ModalProps) (t : ClickTarget) (k : String) :
    (dispatchClick p t).1 = p ∧ (dispatchKeydown p k).1 = p := by
  cases ho : p.isOpen <;> cases hb : p.closeOnBackdropClick <;>
    cases he : p.closeOnEscapeKey <;> by_cases hk : k = "Escape" <;> cases t <;>
    simp [dispatchClick, dispatchKeydown, handlerChain, bubble, runHandler,
      handleBackdropClick, handleModalClick, handleEscape, ho, hb, he, hk]

/-- C9: omitting both dismissal flags resolves them to true, so
shouldDismissOnBackdrop and shouldDismissOnEscape both return true for
an instance constructed without explicit values. -/
theorem C9_policy_defaults (b : Bool) :
    shouldDismissOnBackdrop (resolveProps
      { isOpen := b, closeOnBackdropClick := none, closeOnEscapeKey := none }) = true ∧
    shouldDismissOnEscape (resolveProps
      { isOpen := b, closeOnBackdropClick := none, closeOnEscapeKey := none }) = true :=
  ⟨rfl, rfl⟩

/-- C10: clicking the built-in close button of an open dialog invokes
onCloseRequested exactly once, for every configuration, including when
both dismissal flags are false; the click also stops at the modal div,
so the backdrop handler never adds a second invocation. -/
theorem C10_close_button (p : ModalProps) (hOpen : p.isOpen = true) :
    (dispatchClick p ClickTarget.closeButton).2 = 1 := by
  simp [dispatchClick, hOpen, handlerChain, bubble, runHandler, handleModalClick]

/-- C10 witness: the close button invokes onCloseRequested once even
with both dismissal flags false. -/
theorem C10_witness :
    ({ isOpen := true, closeOnBackdropClick := false,
        closeOnEscapeKey := false } : ModalProps).isOpen = true ∧
    (dispatchClick
      { isOpen := true, closeOnBackdropClick := false, closeOnEscapeKey := false }
      ClickTarget.closeButton).2 = 1 :=
  ⟨rfl, C10_close_button
    { isOpen := true, closeOnBackdropClick := false, closeOnEscapeKey := false } rfl⟩
